import Mathlib

/-!
Verification of the eink-arrow program (src/main.rs).

The shape model (`Arrow`), its operations (`new`, `rotate`, `move_forward`,
`draw`), the event type (`ArrowMessage`) and the control loop of `main` are
embedded shallowly below.  The `i32` coordinate fields are modelled as
mathematical integers (`Int`), which agrees with `i32` arithmetic for all
in-range values; a second model (`Arrow32`) with exact 32-bit two's-complement
wrapping arithmetic is used for the claims where overflow matters.
The framebuffer (`Display2in7b`) and the e-paper driver (`Epd2in7b`) are
external collaborators; they are modelled parametrically: a `DrawTarget` is
any state with a `clear_buffer` operation and a fallible styled-primitive
`draw`, an `Epd` is any state with fallible `update_frame`/`display_frame`.
-/

namespace EinkArrow

/-- `epd_waveshare::graphics::DisplayRotation`: the four discrete headings. -/
inductive DisplayRotation : Type where
  | Rotate0
  | Rotate90
  | Rotate180
  | Rotate270
deriving DecidableEq

/-- The two colors used by the program: `Color::White` (background) and
`Black` (ink). -/
inductive Color : Type where
  | White
  | Black
deriving DecidableEq

/-- `embedded_graphics::geometry::Point` (two `i32` coordinates). -/
structure Point : Type where
  x : Int
  y : Int
deriving DecidableEq

def Point.new (x y : Int) : Point := ⟨x, y⟩

/-- `embedded_graphics::geometry::Size` (two `u32` components). -/
structure Size : Type where
  width : Int
  height : Int
deriving DecidableEq

def Size.new (w h : Int) : Size := ⟨w, h⟩

/-- Rust `as u32` cast from `i32`: reduce modulo 2^32 into `[0, 2^32)`. -/
def u32cast (n : Int) : Int := n % 4294967296

/-- `embedded_graphics::primitives::Rectangle` (top-left corner and size). -/
structure Rectangle : Type where
  top_left : Point
  size : Size
deriving DecidableEq

def Rectangle.new (p : Point) (s : Size) : Rectangle := ⟨p, s⟩

/-- `embedded_graphics::primitives::Triangle` (three vertices). -/
structure Triangle : Type where
  p1 : Point
  p2 : Point
  p3 : Point
deriving DecidableEq

def Triangle.new (p1 p2 p3 : Point) : Triangle := ⟨p1, p2, p3⟩

/-- The `Arrow` struct: anchor coordinates, glyph radius and heading.
`i32` fields are modelled as `Int` (exact for in-range values). -/
structure Arrow : Type where
  x : Int
  y : Int
  radius : Int
  rotation : DisplayRotation
deriving DecidableEq

/-- `Arrow::new(radius)`. -/
def Arrow.new (radius : Int) : Arrow :=
  { radius := radius
    x := radius
    y := radius
    rotation := DisplayRotation.Rotate0 }

/-- The arrow constructed by `main`: `Arrow::new(20)`. -/
def initialArrow : Arrow := Arrow.new 20

/-- `Arrow::rotate`. -/
def Arrow.rotate (a : Arrow) : Arrow :=
  { a with
    rotation :=
      match a.rotation with
      | DisplayRotation.Rotate0 => DisplayRotation.Rotate90
      | DisplayRotation.Rotate90 => DisplayRotation.Rotate180
      | DisplayRotation.Rotate180 => DisplayRotation.Rotate270
      | DisplayRotation.Rotate270 => DisplayRotation.Rotate0 }

/-- `Arrow::move_forward(distance)`. -/
def Arrow.move_forward (a : Arrow) (distance : Int) : Arrow :=
  match a.rotation with
  | DisplayRotation.Rotate0 => { a with y := a.y + distance }
  | DisplayRotation.Rotate90 => { a with x := a.x - distance }
  | DisplayRotation.Rotate180 => { a with y := a.y - distance }
  | DisplayRotation.Rotate270 => { a with x := a.x + distance }

/-- The `(rectangle, triangle)` pair computed by the `match self.rotation`
expression inside `Arrow::draw`. -/
def Arrow.drawPrimitives (a : Arrow) : Rectangle × Triangle :=
  let rect_size := Size.new (u32cast a.radius) (u32cast a.radius)
  match a.rotation with
  | DisplayRotation.Rotate0 =>
    (Rectangle.new (Point.new (a.x - Int.tdiv a.radius 2) (a.y - a.radius)) rect_size,
     Triangle.new (Point.new (a.x - a.radius) a.y)
       (Point.new a.x (a.y + a.radius))
       (Point.new (a.x + a.radius) a.y))
  | DisplayRotation.Rotate90 =>
    (Rectangle.new (Point.new a.x (a.y - Int.tdiv a.radius 2)) rect_size,
     Triangle.new (Point.new a.x (a.y - a.radius))
       (Point.new (a.x - a.radius) a.y)
       (Point.new a.x (a.y + a.radius)))
  | DisplayRotation.Rotate180 =>
    (Rectangle.new (Point.new (a.x - Int.tdiv a.radius 2) a.y) rect_size,
     Triangle.new (Point.new (a.x - a.radius) a.y)
       (Point.new a.x (a.y - a.radius))
       (Point.new (a.x + a.radius) a.y))
  | DisplayRotation.Rotate270 =>
    (Rectangle.new (Point.new (a.x - a.radius) (a.y - Int.tdiv a.radius 2)) rect_size,
     Triangle.new (Point.new a.x (a.y - a.radius))
       (Point.new (a.x + a.radius) a.y)
       (Point.new a.x (a.y + a.radius)))

/-- A styled primitive handed to the framebuffer backend. -/
inductive Primitive : Type where
  | rect (r : Rectangle)
  | tri (t : Triangle)
deriving DecidableEq

/-- Interface of the framebuffer collaborator (`Display2in7b`):
`clear_buffer` and the fallible draw of a styled (filled) primitive. -/
structure DrawTarget (FB : Type) (E : Type) : Type where
  clear_buffer : Color → FB → FB
  draw_styled : Primitive → Color → FB → Except E FB

/-- `Arrow::draw(&self, display)`: clear the buffer to white, then draw the
shaft rectangle and the head triangle filled black; each `let _ = ...draw(...)`
discards a possible backend error, keeping the buffer as it was before the
failing primitive. -/
def Arrow.draw {FB E : Type} (disp : DrawTarget FB E) (a : Arrow) (fb : FB) : FB :=
  let fb0 := disp.clear_buffer Color.White fb
  let prims := a.drawPrimitives
  let fb1 :=
    match disp.draw_styled (Primitive.rect prims.1) Color.Black fb0 with
    | Except.ok f => f
    | Except.error _ => fb0
  match disp.draw_styled (Primitive.tri prims.2) Color.Black fb1 with
  | Except.ok f => f
  | Except.error _ => fb1

/-- `enum ArrowMessage`. -/
inductive ArrowMessage : Type where
  | Rotate
  | MoveForward (distance : Int)
deriving DecidableEq

/-- The `match received` in the body of the control loop of `main`. -/
def applyMessage (a : Arrow) (m : ArrowMessage) : Arrow :=
  match m with
  | ArrowMessage.MoveForward distance => a.move_forward distance
  | ArrowMessage.Rotate => a.rotate

/-- Interface of the e-paper driver collaborator (`Epd2in7b`): fallible
physical refresh.  `display_frame` failure aborts via `expect`, which like
the `?` on `update_frame` terminates the loop; both are modelled as error
propagation. -/
structure Epd (FB : Type) (EPD : Type) (IOE : Type) : Type where
  update_frame : FB → EPD → Except IOE EPD
  display_frame : EPD → Except IOE EPD

/-- The mutable state threaded through `main`'s loop: the lock-protected
arrow, the framebuffer and the panel-driver state. -/
structure LoopState (FB : Type) (EPD : Type) : Type where
  arrow : Arrow
  display : FB
  epd : EPD

/-- One iteration of `for received in rx`: apply the event to the arrow,
redraw the framebuffer, update and display the frame. -/
def mainStep {FB E EPD IOE : Type} (dt : DrawTarget FB E) (ep : Epd FB EPD IOE)
    (s : LoopState FB EPD) (m : ArrowMessage) : Except IOE (LoopState FB EPD) :=
  let arrow := applyMessage s.arrow m
  let display := arrow.draw dt s.display
  match ep.update_frame display s.epd with
  | Except.error err => Except.error err
  | Except.ok epd1 =>
    match ep.display_frame epd1 with
    | Except.error err => Except.error err
    | Except.ok epd2 => Except.ok ⟨arrow, display, epd2⟩

/-- The control loop of `main`, run over a finite list of delivered events
(the queue contents in delivery order). -/
def mainLoop {FB E EPD IOE : Type} (dt : DrawTarget FB E) (ep : Epd FB EPD IOE)
    (s : LoopState FB EPD) : List ArrowMessage → Except IOE (LoopState FB EPD)
  | [] => Except.ok s
  | m :: ms =>
    match mainStep dt ep s m with
    | Except.error err => Except.error err
    | Except.ok s' => mainLoop dt ep s' ms

/-- Modelled from the spec: applying one event to the Shape Model in
isolation (`Rotate` → `rotate()`; `MoveForward(d)` → `move_forward(d)`). -/
def specApply (a : Arrow) (m : ArrowMessage) : Arrow :=
  match m with
  | ArrowMessage.Rotate => a.rotate
  | ArrowMessage.MoveForward d => a.move_forward d

/-- Modelled from the spec: applying an event sequence to the Shape Model in
isolation, one event at a time, in order. -/
def specRun (a : Arrow) (ms : List ArrowMessage) : Arrow :=
  ms.foldl specApply a

/-- Modelled from the spec: the next heading in cyclic order
0°→90°→180°→270°→0°. -/
def specNextHeading : DisplayRotation → DisplayRotation
  | DisplayRotation.Rotate0 => DisplayRotation.Rotate90
  | DisplayRotation.Rotate90 => DisplayRotation.Rotate180
  | DisplayRotation.Rotate180 => DisplayRotation.Rotate270
  | DisplayRotation.Rotate270 => DisplayRotation.Rotate0

/-- Reduce an integer modulo 2^32 into `[-2^31, 2^31)`: the value a 32-bit
two's-complement register holds after wrapping arithmetic. -/
def wrap32 (n : Int) : Int := (n + 2147483648) % 4294967296 - 2147483648

/-- The `i32` range. -/
def inRange32 (n : Int) : Prop := -2147483648 ≤ n ∧ n < 2147483648

instance (n : Int) : Decidable (inRange32 n) := by
  unfold inRange32
  infer_instance

/-- The `Arrow` struct with the `i32` coordinate fields modelled exactly:
values in `[-2^31, 2^31)` and wrapping arithmetic. -/
structure Arrow32 : Type where
  x : Int
  y : Int
  radius : Int
  rotation : DisplayRotation
deriving DecidableEq

/-- `Arrow::move_forward(distance)` under exact 32-bit two's-complement
(release-mode) arithmetic: each `+=`/`-=` wraps modulo 2^32. -/
def Arrow32.move_forward (a : Arrow32) (distance : Int) : Arrow32 :=
  match a.rotation with
  | DisplayRotation.Rotate0 => { a with y := wrap32 (a.y + distance) }
  | DisplayRotation.Rotate90 => { a with x := wrap32 (a.x - distance) }
  | DisplayRotation.Rotate180 => { a with y := wrap32 (a.y - distance) }
  | DisplayRotation.Rotate270 => { a with x := wrap32 (a.x + distance) }

/-- The x-displacement that `move_forward(d)` applies at a given heading. -/
def dispDX (r : DisplayRotation) (d : Int) : Int :=
  match r with
  | DisplayRotation.Rotate90 => -d
  | DisplayRotation.Rotate270 => d
  | _ => 0

/-- The y-displacement that `move_forward(d)` applies at a given heading. -/
def dispDY (r : DisplayRotation) (d : Int) : Int :=
  match r with
  | DisplayRotation.Rotate0 => d
  | DisplayRotation.Rotate180 => -d
  | _ => 0

/-!  ## Claim theorems -/

/-- C1: `move_forward(d)` displaces the anchor along the current heading's
axis — heading 0° adds `d` to `y`, 90° subtracts `d` from `x`, 180° subtracts
`d` from `y`, 270° adds `d` to `x` — changes nothing else, accepts any
integer `d` (negative moves backward), and applies no bounds check. -/
theorem move_forward_heading_effect (a : Arrow) (d : Int) :
    a.move_forward d =
      { a with
        x :=
          match a.rotation with
          | DisplayRotation.Rotate90 => a.x - d
          | DisplayRotation.Rotate270 => a.x + d
          | _ => a.x
        y :=
          match a.rotation with
          | DisplayRotation.Rotate0 => a.y + d
          | DisplayRotation.Rotate180 => a.y - d
          | _ => a.y } := by
  cases a with
  | mk x y radius rot => cases rot <;> rfl

/-- C2: `rotate()` advances the heading to the next state in the cyclic
order 0°→90°→180°→270°→0°, so four applications of `rotate()` return the
rotation field to its original value, from any starting heading. -/
theorem rotate_cyclic_order_four (a : Arrow) :
    (a.rotate).rotation = specNextHeading a.rotation ∧
      (a.rotate.rotate.rotate.rotate).rotation = a.rotation := by
  cases a with
  | mk x y radius rot => cases rot <;> exact ⟨rfl, rfl⟩

/-- C5: `move_forward(d)` followed by `move_forward(-d)` restores the
original `(x, y)` exactly, for any heading and any integer `d`. -/
theorem move_forward_inverse (a : Arrow) (d : Int) :
    ((a.move_forward d).move_forward (-d)).x = a.x ∧
      ((a.move_forward d).move_forward (-d)).y = a.y := by
  cases a with
  | mk x y radius rot =>
    cases rot <;> constructor <;> simp [Arrow.move_forward]

/-- C6: from any state at heading 0°, the event sequence
`[Rotate, Rotate, MoveForward(50)]` yields heading 180° and moves the anchor
by `-50` along the y-axis, leaving `x` unchanged. -/
theorem events_rotate_twice_move50 (a : Arrow)
    (h : a.rotation = DisplayRotation.Rotate0) :
    (specRun a [ArrowMessage.Rotate, ArrowMessage.Rotate,
        ArrowMessage.MoveForward 50]).rotation = DisplayRotation.Rotate180 ∧
      (specRun a [ArrowMessage.Rotate, ArrowMessage.Rotate,
        ArrowMessage.MoveForward 50]).y = a.y - 50 ∧
      (specRun a [ArrowMessage.Rotate, ArrowMessage.Rotate,
        ArrowMessage.MoveForward 50]).x = a.x := by
  cases a with
  | mk x y radius rot =>
    subst h
    exact ⟨rfl, rfl, rfl⟩

/-- Witness for C6 at the startup arrow `Arrow::new(20)`. -/
theorem events_rotate_twice_move50_witness :
    (specRun (Arrow.new 20) [ArrowMessage.Rotate, ArrowMessage.Rotate,
        ArrowMessage.MoveForward 50]).rotation = DisplayRotation.Rotate180 ∧
      (specRun (Arrow.new 20) [ArrowMessage.Rotate, ArrowMessage.Rotate,
        ArrowMessage.MoveForward 50]).y = (Arrow.new 20).y - 50 ∧
      (specRun (Arrow.new 20) [ArrowMessage.Rotate, ArrowMessage.Rotate,
        ArrowMessage.MoveForward 50]).x = (Arrow.new 20).x :=
  events_rotate_twice_move50 (Arrow.new 20) rfl

/-- C7: `Arrow::new(r)` produces `x = r`, `y = r`, `radius = r`, heading 0°,
and the single instance constructed at startup is `Arrow::new(20)`, anchored
at `(radius, radius)` with heading 0°. -/
theorem arrow_new_initial_state (r : Int) :
    (Arrow.new r).x = r ∧ (Arrow.new r).y = r ∧ (Arrow.new r).radius = r ∧
      (Arrow.new r).rotation = DisplayRotation.Rotate0 ∧
      initialArrow = Arrow.new 20 ∧
      initialArrow.x = initialArrow.radius ∧
      initialArrow.y = initialArrow.radius ∧
      initialArrow.rotation = DisplayRotation.Rotate0 :=
  ⟨rfl, rfl, rfl, rfl, rfl, rfl, rfl, rfl⟩

/-- The loop body applies the event and only then renders: the arrow
component of a successful `mainStep` is exactly `applyMessage`. -/
theorem mainStep_arrow_eq {FB E EPD IOE : Type} (dt : DrawTarget FB E)
    (ep : Epd FB EPD IOE) (s : LoopState FB EPD) (m : ArrowMessage)
    (s' : LoopState FB EPD) (h : mainStep dt ep s m = Except.ok s') :
    s'.arrow = applyMessage s.arrow m := by
  obtain ⟨sa, sd, se⟩ := s'
  cases hu : ep.update_frame ((applyMessage s.arrow m).draw dt s.display) s.epd with
  | error err => simp [mainStep, hu] at h
  | ok epd1 =>
    cases hd : ep.display_frame epd1 with
    | error err => simp [mainStep, hu, hd] at h
    | ok epd2 =>
      simp [mainStep, hu, hd] at h
      exact h.1.symm

/-- In-loop event application agrees with the spec's Shape-Model map. -/
theorem applyMessage_eq_specApply (a : Arrow) (m : ArrowMessage) :
    applyMessage a m = specApply a m := by
  cases m <;> rfl

/-- A successful run of the control loop folds the event handlers over the
arrow, one event per iteration, in delivery order. -/
theorem mainLoop_arrow_eq {FB E EPD IOE : Type} (dt : DrawTarget FB E)
    (ep : Epd FB EPD IOE) :
    ∀ (ms : List ArrowMessage) (s s' : LoopState FB EPD),
      mainLoop dt ep s ms = Except.ok s' → s'.arrow = specRun s.arrow ms := by
  intro ms
  induction ms with
  | nil =>
    intro s s' h
    cases h
    rfl
  | cons m ms ih =>
    intro s s' h
    unfold mainLoop at h
    cases hs : mainStep dt ep s m with
    | error err => rw [hs] at h; exact absurd h (by simp)
    | ok s1 =>
      rw [hs] at h
      have h1 := mainStep_arrow_eq dt ep s m s1 hs
      have h2 := ih s1 s' h
      rw [h2, h1, applyMessage_eq_specApply]
      rfl

/-- C3: the control loop, run over any finite delivered event sequence,
leaves the Arrow in exactly the state obtained by applying that sequence to
the Shape Model in isolation (the sequential fold of the event handlers). -/
theorem mainLoop_refines_specRun {FB E EPD IOE : Type} (dt : DrawTarget FB E)
    (ep : Epd FB EPD IOE) (ms : List ArrowMessage) (s s' : LoopState FB EPD)
    (h : mainLoop dt ep s ms = Except.ok s') :
    s'.arrow = specRun s.arrow ms :=
  mainLoop_arrow_eq dt ep ms s s' h

/-- A concrete always-succeeding framebuffer backend (counts operations). -/
def countingTarget : DrawTarget Nat Unit :=
  { clear_buffer := fun _ f => f + 1
    draw_styled := fun _ _ f => Except.ok (f + 1) }

/-- A concrete always-succeeding panel driver (counts refreshes). -/
def countingEpd : Epd Nat Nat Unit :=
  { update_frame := fun _ n => Except.ok (n + 1)
    display_frame := fun n => Except.ok (n + 1) }

/-- Witness for C3: a concrete two-event run of the loop succeeds and its
arrow matches the Shape-Model fold. -/
theorem mainLoop_refines_specRun_witness :
    mainLoop countingTarget countingEpd ⟨Arrow.new 20, 0, 0⟩
        [ArrowMessage.Rotate, ArrowMessage.MoveForward 100] =
      Except.ok ⟨⟨-80, 20, 20, DisplayRotation.Rotate90⟩, 6, 4⟩ ∧
      (⟨-80, 20, 20, DisplayRotation.Rotate90⟩ : Arrow) =
        specRun (Arrow.new 20) [ArrowMessage.Rotate, ArrowMessage.MoveForward 100] :=
  ⟨rfl,
    (mainLoop_refines_specRun countingTarget countingEpd
      [ArrowMessage.Rotate, ArrowMessage.MoveForward 100]
      ⟨Arrow.new 20, 0, 0⟩ ⟨⟨-80, 20, 20, DisplayRotation.Rotate90⟩, 6, 4⟩ rfl)⟩

/-- The apex of the head triangle computed by `draw`: in every heading case
of the source, the second listed triangle vertex. -/
def apexVertex (a : Arrow) : Point := ((a.drawPrimitives).2).p2

/-- The first base vertex of the head triangle (first listed vertex). -/
def baseVertex1 (a : Arrow) : Point := ((a.drawPrimitives).2).p1

/-- The second base vertex of the head triangle (third listed vertex). -/
def baseVertex2 (a : Arrow) : Point := ((a.drawPrimitives).2).p3

/-- Integer dot product of two points taken as vectors. -/
def dot (p q : Point) : Int := p.x * q.x + p.y * q.y

/-- The apex direction of a heading, read off the drawn geometry of a unit
arrow at the origin. -/
def headingDirection (r : DisplayRotation) : Point :=
  apexVertex { x := 0, y := 0, radius := 1, rotation := r }

/-- C4: for a fixed `(x, y, radius)`, under every heading the head triangle's
apex sits at the anchor displaced by `radius` along that heading's movement
axis (the very displacement `move_forward(radius)` applies), its two base
vertices are symmetric about the anchor, perpendicular to the heading axis,
at offset `±radius`; and the four apex directions are pairwise orthogonal or
opposite in the cyclic order 0°→90°→180°→270°. -/
theorem draw_head_geometry (a : Arrow) :
    apexVertex a = Point.new (a.move_forward a.radius).x (a.move_forward a.radius).y ∧
      (baseVertex1 a).x + (baseVertex2 a).x = 2 * a.x ∧
      (baseVertex1 a).y + (baseVertex2 a).y = 2 * a.y ∧
      dot (Point.new ((baseVertex2 a).x - a.x) ((baseVertex2 a).y - a.y))
          (headingDirection a.rotation) = 0 ∧
      ((baseVertex2 a).x - a.x) ^ 2 + ((baseVertex2 a).y - a.y) ^ 2 =
        a.radius ^ 2 ∧
      (∀ r : DisplayRotation,
        dot (headingDirection r) (headingDirection (specNextHeading r)) = 0 ∧
          headingDirection (specNextHeading (specNextHeading r)) =
            Point.new (-(headingDirection r).x) (-(headingDirection r).y)) := by
  have hdirs : ∀ r : DisplayRotation,
      dot (headingDirection r) (headingDirection (specNextHeading r)) = 0 ∧
        headingDirection (specNextHeading (specNextHeading r)) =
          Point.new (-(headingDirection r).x) (-(headingDirection r).y) := by
    intro r
    cases r <;> exact ⟨rfl, rfl⟩
  cases a with
  | mk x y radius rot =>
    cases rot <;>
      refine ⟨rfl, ?_, ?_, ?_, ?_, hdirs⟩ <;>
        simp [baseVertex1, baseVertex2, dot, headingDirection, apexVertex,
          Arrow.drawPrimitives, Point.new, Triangle.new, Rectangle.new,
          Size.new] <;>
        ring

/-- C9: `Arrow::draw` never propagates a backend error.  It first clears the
buffer to white; the shaft rectangle and head triangle are then drawn
unconditionally, and a failure reported for either primitive is silently
discarded, leaving the buffer as it was before the failing primitive. -/
theorem draw_discards_errors {FB E : Type} (dt : DrawTarget FB E) (a : Arrow)
    (fb : FB) :
    (∀ f1 f2,
        dt.draw_styled (Primitive.rect (a.drawPrimitives).1) Color.Black
            (dt.clear_buffer Color.White fb) = Except.ok f1 →
          dt.draw_styled (Primitive.tri (a.drawPrimitives).2) Color.Black f1 =
              Except.ok f2 →
            a.draw dt fb = f2) ∧
      (∀ f1 e,
        dt.draw_styled (Primitive.rect (a.drawPrimitives).1) Color.Black
            (dt.clear_buffer Color.White fb) = Except.ok f1 →
          dt.draw_styled (Primitive.tri (a.drawPrimitives).2) Color.Black f1 =
              Except.error e →
            a.draw dt fb = f1) ∧
      (∀ e f2,
        dt.draw_styled (Primitive.rect (a.drawPrimitives).1) Color.Black
            (dt.clear_buffer Color.White fb) = Except.error e →
          dt.draw_styled (Primitive.tri (a.drawPrimitives).2) Color.Black
              (dt.clear_buffer Color.White fb) = Except.ok f2 →
            a.draw dt fb = f2) ∧
      (∀ e1 e2,
        dt.draw_styled (Primitive.rect (a.drawPrimitives).1) Color.Black
            (dt.clear_buffer Color.White fb) = Except.error e1 →
          dt.draw_styled (Primitive.tri (a.drawPrimitives).2) Color.Black
              (dt.clear_buffer Color.White fb) = Except.error e2 →
            a.draw dt fb = dt.clear_buffer Color.White fb) := by
  refine ⟨?_, ?_, ?_, ?_⟩
  · intro f1 f2 h1 h2
    simp [Arrow.draw, h1, h2]
  · intro f1 e h1 h2
    simp [Arrow.draw, h1, h2]
  · intro e f2 h1 h2
    simp [Arrow.draw, h1, h2]
  · intro e1 e2 h1 h2
    simp [Arrow.draw, h1, h2]

/-- A concrete backend whose triangle draws always fail. -/
def triFailTarget : DrawTarget Nat Unit :=
  { clear_buffer := fun _ f => f + 1
    draw_styled := fun p _ f =>
      match p with
      | Primitive.rect _ => Except.ok (f + 10)
      | Primitive.tri _ => Except.error () }

/-- Witness for C9: with a backend that fails on the head triangle, `draw`
returns the buffer as left by the shaft rectangle. -/
theorem draw_discards_errors_witness :
    (Arrow.new 20).draw triFailTarget 0 = 11 :=
  (draw_discards_errors triFailTarget (Arrow.new 20) 0).2.1 11 () rfl rfl

/-- Event handling never touches the radius field. -/
theorem specRun_radius (ms : List ArrowMessage) :
    ∀ a : Arrow, (specRun a ms).radius = a.radius := by
  induction ms with
  | nil => intro a; rfl
  | cons m ms ih =>
    intro a
    have hstep : (specApply a m).radius = a.radius := by
      cases m with
      | Rotate => rfl
      | MoveForward d =>
        cases a with
        | mk x y radius rot => cases rot <;> rfl
    calc (specRun a (m :: ms)).radius
        = (specRun (specApply a m) ms).radius := rfl
      _ = (specApply a m).radius := ih (specApply a m)
      _ = a.radius := hstep

/-- C10: every operation touches only its designated fields: `rotate()`
leaves `x`, `y`, `radius` unchanged; `move_forward(d)` leaves `radius` and
`rotation` unchanged and leaves untouched the coordinate not selected by the
heading; `radius` never changes under any event sequence; and the loop body's
render phase (`draw` and the frame refresh) leaves the Arrow exactly as the
event handler set it. -/
theorem frame_conditions (a : Arrow) (d : Int) (ms : List ArrowMessage) :
    ((a.rotate).x = a.x ∧ (a.rotate).y = a.y ∧ (a.rotate).radius = a.radius) ∧
      ((a.move_forward d).radius = a.radius ∧
        (a.move_forward d).rotation = a.rotation) ∧
      (match a.rotation with
        | DisplayRotation.Rotate0 => (a.move_forward d).x = a.x
        | DisplayRotation.Rotate90 => (a.move_forward d).y = a.y
        | DisplayRotation.Rotate180 => (a.move_forward d).x = a.x
        | DisplayRotation.Rotate270 => (a.move_forward d).y = a.y) ∧
      (specRun a ms).radius = a.radius ∧
      (∀ (FB E EPD IOE : Type) (dt : DrawTarget FB E) (ep : Epd FB EPD IOE)
          (fb : FB) (pd : EPD) (m : ArrowMessage) (s' : LoopState FB EPD),
        mainStep dt ep ⟨a, fb, pd⟩ m = Except.ok s' →
          s'.arrow = applyMessage a m) := by
  refine ⟨⟨rfl, rfl, rfl⟩, ?_, ?_, specRun_radius ms a, ?_⟩
  · cases a with
    | mk x y radius rot => cases rot <;> exact ⟨rfl, rfl⟩
  · cases a with
    | mk x y radius rot => cases rot <;> rfl
  · intro FB E EPD IOE dt ep fb pd m s' h
    exact mainStep_arrow_eq dt ep ⟨a, fb, pd⟩ m s' h

/-- Witness for C10: a concrete loop iteration whose render phase leaves the
Arrow exactly as `applyMessage` set it. -/
theorem frame_conditions_witness :
    ({ arrow := ⟨5, 5, 5, DisplayRotation.Rotate90⟩, display := 3, epd := 2 } :
        LoopState Nat Nat).arrow = applyMessage (Arrow.new 5) ArrowMessage.Rotate :=
  (frame_conditions (Arrow.new 5) 7 [ArrowMessage.Rotate]).2.2.2.2
    Nat Unit Nat Unit countingTarget countingEpd 0 0 ArrowMessage.Rotate
    ⟨⟨5, 5, 5, DisplayRotation.Rotate90⟩, 3, 2⟩ rfl

/-- `wrap32` is the identity on in-range values. -/
theorem wrap32_eq_self {n : Int} (h : inRange32 n) : wrap32 n = n := by
  unfold wrap32
  unfold inRange32 at h
  omega

/-- `wrap32` always lands in the `i32` range. -/
theorem wrap32_inRange (n : Int) : inRange32 (wrap32 n) := by
  unfold wrap32 inRange32
  omega

/-- Wrapping an already-wrapped summand does not change the wrapped sum. -/
theorem wrap32_add_left (m k : Int) : wrap32 (wrap32 m + k) = wrap32 (m + k) := by
  unfold wrap32
  omega

/-- Folding wrapped `move_forward` over a distance list: each coordinate is
the wrap of its exact displaced value. -/
theorem foldl_move_forward32_xy (ds : List Int) :
    ∀ a : Arrow32, inRange32 a.x → inRange32 a.y →
      (ds.foldl Arrow32.move_forward a).x =
          wrap32 (a.x + (ds.map (dispDX a.rotation)).sum) ∧
        (ds.foldl Arrow32.move_forward a).y =
          wrap32 (a.y + (ds.map (dispDY a.rotation)).sum) := by
  induction ds with
  | nil =>
    intro a hx hy
    simp [wrap32_eq_self hx, wrap32_eq_self hy]
  | cons d ds ih =>
    intro a hx hy
    obtain ⟨ax, ay, ar, rot⟩ := a
    cases rot with
    | Rotate0 =>
      obtain ⟨ihx, ihy⟩ :=
        ih ⟨ax, wrap32 (ay + d), ar, DisplayRotation.Rotate0⟩ hx (wrap32_inRange _)
      refine ⟨?_, ?_⟩
      · simpa [Arrow32.move_forward, dispDX] using ihx
      · simp only [List.foldl_cons, List.map_cons, List.sum_cons,
          Arrow32.move_forward, dispDY]
        rw [ihy, wrap32_add_left, add_assoc]
    | Rotate90 =>
      obtain ⟨ihx, ihy⟩ :=
        ih ⟨wrap32 (ax - d), ay, ar, DisplayRotation.Rotate90⟩ (wrap32_inRange _) hy
      refine ⟨?_, ?_⟩
      · simp only [List.foldl_cons, List.map_cons, List.sum_cons,
          Arrow32.move_forward, dispDX]
        rw [ihx, wrap32_add_left, sub_eq_add_neg, add_assoc]
      · simpa [Arrow32.move_forward, dispDY] using ihy
    | Rotate180 =>
      obtain ⟨ihx, ihy⟩ :=
        ih ⟨ax, wrap32 (ay - d), ar, DisplayRotation.Rotate180⟩ hx (wrap32_inRange _)
      refine ⟨?_, ?_⟩
      · simpa [Arrow32.move_forward, dispDX] using ihx
      · simp only [List.foldl_cons, List.map_cons, List.sum_cons,
          Arrow32.move_forward, dispDY]
        rw [ihy, wrap32_add_left, sub_eq_add_neg, add_assoc]
    | Rotate270 =>
      obtain ⟨ihx, ihy⟩ :=
        ih ⟨wrap32 (ax + d), ay, ar, DisplayRotation.Rotate270⟩ (wrap32_inRange _) hy
      refine ⟨?_, ?_⟩
      · simp only [List.foldl_cons, List.map_cons, List.sum_cons,
          Arrow32.move_forward, dispDX]
        rw [ihx, wrap32_add_left, add_assoc]
      · simpa [Arrow32.move_forward, dispDY] using ihy

/-- C8 counterexample: at heading 270° with `x = i32::MAX`, the `i32`
addition of `move_forward(1)` wraps to `i32::MIN` instead of the exact
mathematical sum — the coordinates are not unbounded integers. -/
theorem move_forward_wraps_at_i32_max :
    (Arrow32.move_forward ⟨2147483647, 0, 20, DisplayRotation.Rotate270⟩ 1).x =
        -2147483648 ∧
      (Arrow32.move_forward ⟨2147483647, 0, 20, DisplayRotation.Rotate270⟩ 1).x ≠
        2147483647 + 1 := by
  constructor
  · decide
  · decide

/-- C8 (amended): `x` and `y` are 32-bit two's-complement integers; no
clamping to display bounds is applied, and for every sequence of
`move_forward` calls each coordinate is the exact integer sum of the applied
displacements reduced modulo 2^32 into the `i32` range — in particular it is
the exact sum whenever that sum lies in the `i32` range. -/
theorem move_forward32_fold_sum (a : Arrow32) (ds : List Int)
    (hx : inRange32 a.x) (hy : inRange32 a.y) :
    (ds.foldl Arrow32.move_forward a).x =
        wrap32 (a.x + (ds.map (dispDX a.rotation)).sum) ∧
      (ds.foldl Arrow32.move_forward a).y =
        wrap32 (a.y + (ds.map (dispDY a.rotation)).sum) ∧
      (inRange32 (a.x + (ds.map (dispDX a.rotation)).sum) →
        (ds.foldl Arrow32.move_forward a).x =
          a.x + (ds.map (dispDX a.rotation)).sum) ∧
      (inRange32 (a.y + (ds.map (dispDY a.rotation)).sum) →
        (ds.foldl Arrow32.move_forward a).y =
          a.y + (ds.map (dispDY a.rotation)).sum) := by
  obtain ⟨hfx, hfy⟩ := foldl_move_forward32_xy ds a hx hy
  refine ⟨hfx, hfy, ?_, ?_⟩
  · intro hin
    rw [hfx, wrap32_eq_self hin]
  · intro hin
    rw [hfy, wrap32_eq_self hin]

/-- Witness for C8 (amended) on a concrete in-range run at heading 270°. -/
theorem move_forward32_fold_sum_witness :
    (([100, -30] : List Int).foldl Arrow32.move_forward
        ⟨20, 20, 20, DisplayRotation.Rotate270⟩).x =
      (20 : Int) + (([100, -30] : List Int).map
        (dispDX DisplayRotation.Rotate270)).sum :=
  (move_forward32_fold_sum ⟨20, 20, 20, DisplayRotation.Rotate270⟩ [100, -30]
    (by decide) (by decide)).2.2.1 (by decide)

end EinkArrow
